import Mathlib

/-!
Verification development for the session-supervisor core (`kitty/boss.py`).

The `Boss` class is embedded as a pure state machine: each Python method
becomes a Lean function on `BossState`.  Operating-system effects are made
explicit:

* `os.read`/`os.write` results are supplied by oracles (`ReadResult`,
  `SigRead`, a list of accepted byte counts for the write loop);
* the wakeup self-pipe is the count of marker bytes written but not yet read;
* calls into external collaborators (glfw, the escape-sequence stream, the
  char grid) are recorded in observable log fields (`fed`, `delivered`,
  `titles_applied`, `window_should_close`, `glfw_events`,
  `update_screen_runs`, `executed`).

Bytes are modelled as `List Nat`.
-/

namespace Kitty

/-- Descriptors registered with `select` by `Boss.run`. -/
inductive Fd where
  | child
  | signalFd
  | wakeupRead
  deriving Repr, DecidableEq

/-- `signal.SIGINT`. -/
def SIGINT : Nat := 2

/-- `signal.SIGTERM`. -/
def SIGTERM : Nat := 15

/-- Deferred units of work put on `Boss.action_queue` by `queue_action`.
Each constructor is one of the `func` targets in `boss.py` together with its
captured arguments. -/
inductive Action where
  | queue_write (data : List Nat)
  | update_screen
  | resize_screen (w h : Nat)
  | apply_opts_to_screen
  | change_colors
  deriving Repr, DecidableEq

/-- The mutable state of a `Boss` instance, with observable effect logs. -/
structure BossState where
  /-- `self.shutting_down` (class attribute, initially `False`). -/
  shutting_down : Bool
  /-- `self.action_queue` (a FIFO `Queue` of `(func, args)` pairs). -/
  action_queue : List Action
  /-- Marker bytes written to `self.write_wakeup_fd` and not yet read from
  `self.read_wakeup_fd`. -/
  wakeup_pipe : Nat
  /-- `self.write_buf` as a byte list. -/
  write_buf : List Nat
  /-- `self.pending_title_change`. -/
  pending_title_change : Option String
  /-- `self.pending_icon_change`. -/
  pending_icon_change : Option String
  /-- `self.pending_color_changes` as an association list. -/
  pending_color_changes : List (Nat × Nat)
  /-- Observable: `glfw.glfwSetWindowShouldClose(self.window, True)` was called. -/
  window_should_close : Bool
  /-- Observable: number of `glfw.glfwPostEmptyEvent()` calls. -/
  glfw_events : Nat
  /-- Observable: bytes handed to `self.stream.feed`. -/
  fed : List Nat
  /-- Observable: bytes accepted by `os.write(self.child_fd, ...)`. -/
  delivered : List Nat
  /-- Observable: number of completed executions of `update_screen`. -/
  update_screen_runs : Nat
  /-- Observable: titles passed to `glfw.glfwSetWindowTitle`. -/
  titles_applied : List String
  /-- Observable: actions executed by the dispatcher loop, in order. -/
  executed : List Action
  /-- Observable: number of `render` calls completed. -/
  renders : Nat
  deriving Repr, DecidableEq

/-- State after `Boss.__init__`: empty queue, empty pipe, `write_buf` is
`memoryview(b'')`, no pending changes, not shutting down. -/
def boss_init : BossState where
  shutting_down := false
  action_queue := []
  wakeup_pipe := 0
  write_buf := []
  pending_title_change := none
  pending_icon_change := none
  pending_color_changes := []
  window_should_close := false
  glfw_events := 0
  fed := []
  delivered := []
  update_screen_runs := 0
  titles_applied := []
  executed := []
  renders := 0

/-- `self.writers`, set once in `__init__` to `[self.child_fd]`. -/
def boss_writers : List Fd := [Fd.child]

/-- `Boss.wakeup`: `os.write(self.write_wakeup_fd, b'1')` — one marker byte. -/
def wakeup (s : BossState) : BossState :=
  { s with wakeup_pipe := s.wakeup_pipe + 1 }

/-- `Boss.queue_action`: put `(func, args)` on the queue, then `self.wakeup()`. -/
def queue_action (a : Action) (s : BossState) : BossState :=
  wakeup { s with action_queue := s.action_queue ++ [a] }

/-- `Boss.shutdown`: set `shutting_down`, ask glfw to close the window, post
an empty event. -/
def shutdown (s : BossState) : BossState :=
  { s with shutting_down := true
           window_should_close := true
           glfw_events := s.glfw_events + 1 }

/-- Executing one popped action `func(*args)` inside `on_wakeup`.  Every
execution is logged in `executed`. -/
def exec_action (a : Action) (s : BossState) : BossState :=
  let s0 := { s with executed := s.executed ++ [a] }
  match a with
  | Action.queue_write data =>
      { s0 with write_buf := s0.write_buf ++ data }
  | Action.update_screen =>
      { s0 with update_screen_runs := s0.update_screen_runs + 1
                glfw_events := s0.glfw_events + 1 }
  | Action.resize_screen _ _ => s0
  | Action.apply_opts_to_screen => s0
  | Action.change_colors =>
      { s0 with pending_color_changes := []
                glfw_events := s0.glfw_events + 1 }

/-- The `while not self.shutting_down` pop-and-run loop of `on_wakeup`.
The flag is tested before every pop; an empty queue ends the loop.  `fuel`
bounds the iterations; since no `Action` enqueues, `action_queue.length`
fuel drains the queue exactly. -/
def drainGo : Nat → BossState → BossState
  | 0, s => s
  | fuel + 1, s =>
      if s.shutting_down then s
      else
        match s.action_queue with
        | [] => s
        | a :: rest => drainGo fuel (exec_action a { s with action_queue := rest })

/-- `Boss.on_wakeup`: read up to 1024 marker bytes from the wakeup pipe
(ignoring would-block), then pop and run queued actions while not shutting
down. -/
def on_wakeup (s : BossState) : BossState :=
  drainGo s.action_queue.length
    { s with wakeup_pipe := s.wakeup_pipe - min s.wakeup_pipe 1024 }

/-- `Boss.write_to_child`: only a non-empty `data` enqueues a `queue_write`
action. -/
def write_to_child (data : List Nat) (s : BossState) : BossState :=
  if data = [] then s else queue_action (Action.queue_write data) s

/-- `Boss.mark_dirtied`: unconditionally enqueue an `update_screen` action. -/
def mark_dirtied (s : BossState) : BossState :=
  queue_action Action.update_screen s

/-- `Boss.on_window_resize`: enqueue a `resize_screen` action. -/
def on_window_resize (w h : Nat) (s : BossState) : BossState :=
  queue_action (Action.resize_screen w h) s

/-- `Boss.apply_opts`: enqueue an `apply_opts_to_screen` action (the stored
`opts` object itself is external). -/
def apply_opts (s : BossState) : BossState :=
  queue_action Action.apply_opts_to_screen s

/-- `Boss.title_changed`: overwrite the pending title slot, post an event. -/
def title_changed (t : String) (s : BossState) : BossState :=
  { s with pending_title_change := some t, glfw_events := s.glfw_events + 1 }

/-- `Boss.icon_changed`: overwrite the pending icon slot, post an event. -/
def icon_changed (t : String) (s : BossState) : BossState :=
  { s with pending_icon_change := some t, glfw_events := s.glfw_events + 1 }

/-- Python dict assignment `d[k] = v` on an association list. -/
def dictInsert (k v : Nat) : List (Nat × Nat) → List (Nat × Nat)
  | [] => [(k, v)]
  | (k0, v0) :: rest =>
      if k0 = k then (k, v) :: rest else (k0, v0) :: dictInsert k v rest

/-- `Boss.change_default_color`: record the pending color, enqueue a
`change_colors` action. -/
def change_default_color (which value : Nat) (s : BossState) : BossState :=
  queue_action Action.change_colors
    { s with pending_color_changes := dictInsert which value s.pending_color_changes }

/-- First block of `Boss.render`: `if self.pending_title_change is not None`,
set the window title and clear the slot. -/
def apply_pending_title (s : BossState) : BossState :=
  match s.pending_title_change with
  | some t =>
      { s with titles_applied := s.titles_applied ++ [t]
               pending_title_change := none }
  | none => s

/-- Second block of `Boss.render`: a pending icon change is only cleared
(the application is an unimplemented hook). -/
def apply_pending_icon (s : BossState) : BossState :=
  match s.pending_icon_change with
  | some _ => { s with pending_icon_change := none }
  | none => s

/-- `Boss.render`: apply a pending title change (and clear the slot), clear a
pending icon change, then render the grid. -/
def render (s : BossState) : BossState :=
  let s2 := apply_pending_icon (apply_pending_title s)
  { s2 with renders := s2.renders + 1 }

/-- Outcome of `os.read(self.child_fd, ...)`: would-block (`BlockingIOError`),
another descriptor-level failure (`EnvironmentError`), or data (possibly
empty, meaning EOF). -/
inductive ReadResult where
  | wouldBlock
  | envError
  | data (bs : List Nat)
  deriving Repr, DecidableEq

/-- The `if data: feed else shutdown` tail of `read_ready`, reached with the
bytes that `os.read` produced (`b''` after an `EnvironmentError`). -/
def read_dispatch (bs : List Nat) (s : BossState) : BossState :=
  if bs = [] then shutdown s else { s with fed := s.fed ++ bs }

/-- `Boss.read_ready`: no-op when shutting down; would-block is ignored; an
`EnvironmentError` is turned into `data = b''`; empty data (EOF) shuts down,
non-empty data is fed to the stream. -/
def read_ready (r : ReadResult) (s : BossState) : BossState :=
  if s.shutting_down then s
  else
    match r with
    | ReadResult.wouldBlock => s
    | ReadResult.envError => read_dispatch [] s
    | ReadResult.data bs => read_dispatch bs s

/-- Outcome of `os.read(self.signal_fd, 1024)`: would-block, or the bytes
(each byte one signal number, per `struct.unpack`). -/
inductive SigRead where
  | wouldBlock
  | data (signals : List Nat)
  deriving Repr, DecidableEq

/-- `Boss.signal_received`: would-block returns; non-empty data containing
`SIGINT` or `SIGTERM` invokes `shutdown`. -/
def signal_received (r : SigRead) (s : BossState) : BossState :=
  match r with
  | SigRead.wouldBlock => s
  | SigRead.data signals =>
      if signals = [] then s
      else if SIGINT ∈ signals ∨ SIGTERM ∈ signals then shutdown s
      else s

/-- The `while self.write_buf` drain loop of `write_ready`.  The oracle list
gives the successive results of `os.write(self.child_fd, self.write_buf)`;
the OS never accepts more than was offered, hence the `min`.  A zero result
returns; otherwise the accepted head moves from the buffer to `delivered`. -/
def write_ready_go : List Nat → List Nat → List Nat → List Nat × List Nat
  | buf, delivered, [] => (buf, delivered)
  | buf, delivered, n :: ns =>
      if buf.isEmpty then (buf, delivered)
      else
        let m := min n buf.length
        if m = 0 then (buf, delivered)
        else write_ready_go (List.drop m buf) (delivered ++ List.take m buf) ns

/-- `Boss.write_ready`: drain the write buffer unless shutting down. -/
def write_ready (ns : List Nat) (s : BossState) : BossState :=
  if s.shutting_down then s
  else
    let p := write_ready_go s.write_buf s.delivered ns
    { s with write_buf := p.1, delivered := p.2 }

/-- `Boss.queue_write` (run as an action): append to the write buffer. -/
def queue_write (data : List Nat) (s : BossState) : BossState :=
  exec_action (Action.queue_write data) s

/-- The write-interest argument `self.writers if self.write_buf else []`
passed to `select.select` by `Boss.run`. -/
def selectWriters (s : BossState) : List Fd :=
  if s.write_buf.isEmpty then [] else boss_writers

/-- Readiness and I/O outcomes for one iteration of `Boss.run`, as decided
by the OS. -/
structure IterOracle where
  child_ready : Bool
  wakeup_ready : Bool
  signal_ready : Bool
  writer_ready : Bool
  child_read : ReadResult
  sig_read : SigRead
  write_ns : List Nat
  deriving Repr, DecidableEq

/-- Reader dispatch for `self.child_fd` in the `for r in readers` loop. -/
def read_phase (o : IterOracle) (s : BossState) : BossState :=
  if o.child_ready then read_ready o.child_read s else s

/-- Reader dispatch for `self.signal_fd`. -/
def signal_phase (o : IterOracle) (s : BossState) : BossState :=
  if o.signal_ready then signal_received o.sig_read s else s

/-- Reader dispatch for `self.read_wakeup_fd`. -/
def wakeup_phase (o : IterOracle) (s : BossState) : BossState :=
  if o.wakeup_ready then on_wakeup s else s

/-- One iteration of the body of `Boss.run`: dispatch each ready reader in
the order of `self.readers` (`child_fd`, `signal_fd`, `read_wakeup_fd`),
then `write_ready` when write interest was registered and granted. -/
def run_iteration (o : IterOracle) (s : BossState) : BossState :=
  if o.writer_ready && !(selectWriters s).isEmpty then
    write_ready o.write_ns (wakeup_phase o (signal_phase o (read_phase o s)))
  else wakeup_phase o (signal_phase o (read_phase o s))

/-- `Boss.run`: `while not self.shutting_down`, one oracle per iteration. -/
def runLoop : List IterOracle → BossState → BossState
  | [], s => s
  | o :: os, s => if s.shutting_down then s else runLoop os (run_iteration o s)

/-- Any single operation of the `Boss` interface, as a step relation. -/
inductive Step : BossState → BossState → Prop where
  | queue_action (a : Action) (s : BossState) : Step s (queue_action a s)
  | wakeup (s : BossState) : Step s (wakeup s)
  | on_wakeup (s : BossState) : Step s (on_wakeup s)
  | write_ready (ns : List Nat) (s : BossState) : Step s (write_ready ns s)
  | read_ready (r : ReadResult) (s : BossState) : Step s (read_ready r s)
  | signal_received (r : SigRead) (s : BossState) : Step s (signal_received r s)
  | shutdown (s : BossState) : Step s (shutdown s)
  | render (s : BossState) : Step s (render s)
  | title_changed (t : String) (s : BossState) : Step s (title_changed t s)
  | icon_changed (t : String) (s : BossState) : Step s (icon_changed t s)
  | write_to_child (d : List Nat) (s : BossState) : Step s (write_to_child d s)
  | mark_dirtied (s : BossState) : Step s (mark_dirtied s)
  | change_default_color (k v : Nat) (s : BossState) :
      Step s (change_default_color k v s)
  | on_window_resize (w h : Nat) (s : BossState) : Step s (on_window_resize w h s)
  | apply_opts (s : BossState) : Step s (apply_opts s)
  | run_iteration (o : IterOracle) (s : BossState) : Step s (run_iteration o s)

/-! ## Helper lemmas -/

/-- The drain loop is inert once `shutting_down` holds. -/
theorem drainGo_shutdown (fuel : Nat) (s : BossState) (h : s.shutting_down = true) :
    drainGo fuel s = s := by
  cases fuel with
  | zero => rfl
  | succ n => simp [drainGo, h]

/-- Under `shutting_down`, `on_wakeup` only drains the wakeup pipe. -/
theorem on_wakeup_shutdown (s : BossState) (h : s.shutting_down = true) :
    on_wakeup s = { s with wakeup_pipe := s.wakeup_pipe - min s.wakeup_pipe 1024 } := by
  unfold on_wakeup
  exact drainGo_shutdown _ _ h

/-! ## C10 — empty write_to_child is a no-op -/

/-- C10: calling `write_to_child` with an empty byte string changes nothing:
no action is enqueued, no wakeup marker is written, the write buffer (and all
other state) is unchanged. -/
theorem write_to_child_empty_noop (s : BossState) : write_to_child [] s = s := by
  simp [write_to_child]

/-! ## C7 — queue_action enqueues and signals the wakeup channel -/

/-- C7: every `queue_action` call appends the action to the queue and writes
exactly one marker to the wakeup pipe, making the readiness wait on the
wakeup descriptor ready. -/
theorem queue_action_enqueues_and_wakes (a : Action) (s : BossState) :
    (queue_action a s).action_queue = s.action_queue ++ [a]
    ∧ (queue_action a s).wakeup_pipe = s.wakeup_pipe + 1
    ∧ 0 < (queue_action a s).wakeup_pipe := by
  refine ⟨rfl, rfl, ?_⟩
  simp [queue_action, wakeup]

/-! ## C8 — write interest iff write buffer non-empty -/

/-- C8: the writer set handed to `select.select` is the child descriptor when
the write buffer is non-empty and empty otherwise; write-readiness interest
is registered iff the buffer is non-empty. -/
theorem select_write_interest (s : BossState) :
    (selectWriters s = if s.write_buf.isEmpty then [] else [Fd.child])
    ∧ (selectWriters s ≠ [] ↔ s.write_buf ≠ []) := by
  constructor
  · rfl
  · unfold selectWriters boss_writers
    rcases s.write_buf with _ | ⟨b, bs⟩ <;> simp

/-- C8 witness at concrete states: interest registered with one buffered
byte, none with an empty buffer. -/
theorem select_write_interest_witness :
    ((selectWriters boss_init = if boss_init.write_buf.isEmpty then [] else [Fd.child])
      ∧ (selectWriters boss_init ≠ [] ↔ boss_init.write_buf ≠ [])) :=
  select_write_interest boss_init

/-! ## C6 — would-block is a no-op, other read failure is EOF-equivalent -/

/-- C6: a would-block child read leaves the state unchanged, and any other
descriptor-level read failure behaves exactly like a zero-length (EOF) read,
which drives `shutdown` when not already shutting down. -/
theorem read_failure_taxonomy (s : BossState) :
    read_ready ReadResult.wouldBlock s = s
    ∧ read_ready ReadResult.envError s = read_ready (ReadResult.data []) s
    ∧ (read_ready ReadResult.envError s
        = if s.shutting_down then s else shutdown s) := by
  refine ⟨?_, rfl, ?_⟩
  · unfold read_ready
    split <;> rfl
  · unfold read_ready read_dispatch
    split <;> simp

/-! ## C4 — EOF and termination signal produce the same shutdown -/

/-- C4: from a running state, a zero-length child read and the delivery of
`SIGINT` or `SIGTERM` produce identical states: both run the `shutdown`
path, which sets `shutting_down` and asks the window system to close. -/
theorem eof_equiv_signal (s : BossState) (h : s.shutting_down = false) :
    read_ready (ReadResult.data []) s = signal_received (SigRead.data [SIGTERM]) s
    ∧ read_ready (ReadResult.data []) s = signal_received (SigRead.data [SIGINT]) s
    ∧ read_ready (ReadResult.data []) s = shutdown s
    ∧ (read_ready (ReadResult.data []) s).shutting_down = true
    ∧ (read_ready (ReadResult.data []) s).window_should_close = true := by
  have heof : read_ready (ReadResult.data []) s = shutdown s := by
    simp [read_ready, read_dispatch, h]
  have hterm : signal_received (SigRead.data [SIGTERM]) s = shutdown s := by
    simp [signal_received, SIGINT, SIGTERM]
  have hint : signal_received (SigRead.data [SIGINT]) s = shutdown s := by
    simp [signal_received, SIGINT, SIGTERM]
  refine ⟨by rw [heof, hterm], by rw [heof, hint], heof, ?_, ?_⟩ <;>
    simp [heof, shutdown]

/-- C4 witness: instantiated at the freshly initialised state. -/
theorem eof_equiv_signal_witness :
    read_ready (ReadResult.data []) boss_init
        = signal_received (SigRead.data [SIGTERM]) boss_init
    ∧ read_ready (ReadResult.data []) boss_init
        = signal_received (SigRead.data [SIGINT]) boss_init
    ∧ read_ready (ReadResult.data []) boss_init = shutdown boss_init
    ∧ (read_ready (ReadResult.data []) boss_init).shutting_down = true
    ∧ (read_ready (ReadResult.data []) boss_init).window_should_close = true :=
  eof_equiv_signal boss_init rfl

/-! ## C5 — write_ready drain-step semantics -/

/-- C5: inside the `write_ready` drain loop, a write accepting zero bytes
stops the drain with the buffer and delivered bytes unchanged, and a write
accepting `n > 0` bytes removes exactly the first `n` bytes from the head of
the buffer, delivering them in order; consequently a `write_ready` whose
first write would block leaves the whole state unchanged. -/
theorem write_step_semantics (s : BossState) (buf del ns : List Nat) (n : Nat)
    (hn : 0 < n) (hle : n ≤ buf.length) (hbuf : buf ≠ [])
    (hs : s.shutting_down = false) :
    write_ready_go buf del (0 :: ns) = (buf, del)
    ∧ write_ready_go buf del (n :: ns)
        = write_ready_go (List.drop n buf) (del ++ List.take n buf) ns
    ∧ write_ready (0 :: ns) s = s := by
  have hz : ∀ (b d : List Nat), write_ready_go b d (0 :: ns) = (b, d) := by
    intro b d
    unfold write_ready_go
    split <;> simp
  refine ⟨hz buf del, ?_, ?_⟩
  · have hne : buf.isEmpty = false := by
      simpa [List.isEmpty_iff] using hbuf
    have hm : min n buf.length = n := Nat.min_eq_left hle
    conv_lhs => rw [write_ready_go]
    simp [hne, hm, ne_of_gt hn]
  · unfold write_ready
    rw [if_neg (by simp [hs])]
    simp [hz]

/-- C5 witness: buffer `[7, 8, 9]`, a zero write stalls, a 2-byte write
removes exactly the head `[7, 8]`. -/
theorem write_step_semantics_witness :
    write_ready_go [7, 8, 9] [] (0 :: [3]) = ([7, 8, 9], [])
    ∧ write_ready_go [7, 8, 9] [] (2 :: [3])
        = write_ready_go (List.drop 2 [7, 8, 9]) ([] ++ List.take 2 [7, 8, 9]) [3]
    ∧ write_ready (0 :: [3]) boss_init = boss_init :=
  write_step_semantics boss_init [7, 8, 9] [] [3] 2 (by decide) (by decide)
    (by decide) rfl

/-! ## C1 — FIFO byte ordering to the child -/

/-- Interleaved history of write enqueues (`queue_write` actions executing)
and `write_ready` drains with their OS-chosen acceptance counts. -/
inductive WEv where
  | enq (b : List Nat)
  | drain (ns : List Nat)
  deriving Repr, DecidableEq

/-- One history event applied to the state. -/
def stepW (s : BossState) : WEv → BossState
  | WEv.enq b => queue_write b s
  | WEv.drain ns => write_ready ns s

/-- Run a whole history. -/
def runW : List WEv → BossState → BossState
  | [], s => s
  | e :: es, s => runW es (stepW s e)

/-- Concatenation of all enqueued byte strings of a history, in order. -/
def concatW : List WEv → List Nat
  | [] => []
  | WEv.enq b :: es => b ++ concatW es
  | WEv.drain _ :: es => concatW es

/-- Each drain step conserves bytes: delivered output followed by the
remaining buffer is unchanged. -/
theorem write_ready_go_conserves (ns buf del : List Nat) :
    (write_ready_go buf del ns).2 ++ (write_ready_go buf del ns).1
      = del ++ buf := by
  induction ns generalizing buf del with
  | nil => simp [write_ready_go]
  | cons n ns ih =>
    unfold write_ready_go
    by_cases hb : buf.isEmpty
    · simp [hb]
    · by_cases hm : min n buf.length = 0
      · simp [hb, hm]
      · simp only [hb, Bool.false_eq_true, if_false, hm, ih]
        rw [List.append_assoc, List.take_append_drop]

/-- Invariant behind C1: along any history from a running state, delivered
bytes followed by the buffered remainder equal the prior contents plus every
enqueued string, in order. -/
theorem runW_conserves (tr : List WEv) (s : BossState)
    (h : s.shutting_down = false) :
    (runW tr s).delivered ++ (runW tr s).write_buf
      = s.delivered ++ (s.write_buf ++ concatW tr) := by
  induction tr generalizing s with
  | nil => simp [runW, concatW]
  | cons e es ih =>
    cases e with
    | enq b =>
      have hsd : (stepW s (WEv.enq b)).shutting_down = false := by
        simp [stepW, queue_write, exec_action, h]
      rw [runW, ih _ hsd]
      simp [stepW, queue_write, exec_action, concatW, List.append_assoc]
    | drain ns =>
      have hsd : (stepW s (WEv.drain ns)).shutting_down = false := by
        simp [stepW, write_ready, h]
      rw [runW, ih _ hsd]
      have hc := write_ready_go_conserves ns s.write_buf s.delivered
      simp [stepW, write_ready, h, concatW, ← List.append_assoc, hc]

/-- C1: starting from the initial state, for every interleaving of enqueues
`enqueue(b1), enqueue(b2), ...` with `write_ready` drains (however many
partial-write cycles occur), the bytes delivered to the child descriptor
followed by the still-buffered remainder are exactly `b1 ++ b2 ++ ...`: no
byte is lost, duplicated, or reordered, and once the buffer is empty the
delivered bytes are the full concatenation. -/
theorem write_ordering (tr : List WEv) :
    (runW tr boss_init).delivered ++ (runW tr boss_init).write_buf
      = concatW tr := by
  simpa [boss_init] using runW_conserves tr boss_init rfl

/-! ## C2 — mark_dirtied does not coalesce -/

/-- After `n` consecutive `mark_dirtied` calls from the initial state the
queue holds `n` `update_screen` actions, nothing has executed yet, and the
session is still running. -/
theorem mark_dirtied_iterate (n : Nat) :
    (Nat.iterate mark_dirtied n boss_init).action_queue
        = List.replicate n Action.update_screen
    ∧ (Nat.iterate mark_dirtied n boss_init).shutting_down = false
    ∧ (Nat.iterate mark_dirtied n boss_init).update_screen_runs = 0 := by
  induction n with
  | zero => exact ⟨rfl, rfl, rfl⟩
  | succ k ih =>
    obtain ⟨h1, h2, h3⟩ := ih
    rw [Function.iterate_succ_apply']
    refine ⟨?_, ?_, ?_⟩ <;>
      simp [mark_dirtied, queue_action, wakeup, h1, h2, h3, List.replicate_succ']

/-- Draining a queue of `n` `update_screen` actions executes `update_screen`
exactly `n` times. -/
theorem drainGo_update_screen (n : Nat) (s : BossState)
    (hq : s.action_queue = List.replicate n Action.update_screen)
    (hs : s.shutting_down = false) :
    (drainGo n s).update_screen_runs = s.update_screen_runs + n := by
  induction n generalizing s with
  | zero => rfl
  | succ k ih =>
    have hq' : s.action_queue
        = Action.update_screen :: List.replicate k Action.update_screen := by
      simpa [List.replicate_succ] using hq
    rw [drainGo, if_neg (by simp [hs]), hq']
    rw [ih _ (by simp [exec_action]) (by simp [exec_action, hs])]
    simp [exec_action]
    omega

/-- `on_wakeup` on a queue of `n` `update_screen` actions runs them all. -/
theorem on_wakeup_update_screen (n : Nat) (s : BossState)
    (hq : s.action_queue = List.replicate n Action.update_screen)
    (hs : s.shutting_down = false) :
    (on_wakeup s).update_screen_runs = s.update_screen_runs + n := by
  unfold on_wakeup
  rw [hq, List.length_replicate]
  exact drainGo_update_screen n _ (by simp [hq]) (by simp [hs])

/-- C2 counterexample: two `mark_dirtied` calls before the next drain lead
to two executions of `update_screen` in that drain, not one — `mark_dirtied`
enqueues unconditionally, with no pending-consolidation check. -/
theorem mark_dirty_two_runs_cex :
    (on_wakeup (mark_dirtied (mark_dirtied boss_init))).update_screen_runs = 2
    ∧ (on_wakeup (mark_dirtied (mark_dirtied boss_init))).update_screen_runs ≠ 1 := by
  decide

/-- C2 amended: for every `N`, `N` consecutive `mark_dirtied` calls arriving
before the control loop next drains the action queue result in exactly `N`
executions of `update_screen` in that drain — one per call, with no
coalescing. -/
theorem mark_dirty_runs_linear (n : Nat) :
    (on_wakeup (Nat.iterate mark_dirtied n boss_init)).update_screen_runs = n := by
  obtain ⟨h1, h2, h3⟩ := mark_dirtied_iterate n
  rw [on_wakeup_update_screen n _ h1 h2, h3]
  exact Nat.zero_add n

/-! ## C3 — shutdown is terminal -/

/-- `read_ready` is a no-op once shutting down. -/
theorem read_ready_shutdown (r : ReadResult) (s : BossState)
    (h : s.shutting_down = true) : read_ready r s = s := by
  simp [read_ready, h]

/-- `write_ready` is a no-op once shutting down. -/
theorem write_ready_shutdown (ns : List Nat) (s : BossState)
    (h : s.shutting_down = true) : write_ready ns s = s := by
  simp [write_ready, h]

/-- `signal_received` never clears the flag. -/
theorem signal_received_sd (r : SigRead) (s : BossState)
    (h : s.shutting_down = true) : (signal_received r s).shutting_down = true := by
  cases r with
  | wouldBlock => exact h
  | data sigs =>
      simp only [signal_received]
      split_ifs <;> simp [shutdown, h]

/-- `signal_received` never executes an action. -/
theorem signal_received_exec (r : SigRead) (s : BossState) :
    (signal_received r s).executed = s.executed := by
  cases r with
  | wouldBlock => rfl
  | data sigs =>
      simp only [signal_received]
      split_ifs <;> rfl

/-- `write_ready` never executes an action. -/
theorem write_ready_exec (ns : List Nat) (s : BossState) :
    (write_ready ns s).executed = s.executed := by
  unfold write_ready
  split <;> rfl

/-- The run loop stops immediately once shutting down. -/
theorem runLoop_shutdown (os : List IterOracle) (s : BossState)
    (h : s.shutting_down = true) : runLoop os s = s := by
  cases os with
  | nil => rfl
  | cons o os => simp [runLoop, h]

/-- The read phase of an iteration is inert once shutting down. -/
theorem read_phase_shutdown (o : IterOracle) (s : BossState)
    (h : s.shutting_down = true) : read_phase o s = s := by
  unfold read_phase
  cases o.child_ready <;> simp [read_ready_shutdown _ _ h]

/-- The signal phase keeps the flag and executes nothing. -/
theorem signal_phase_frame (o : IterOracle) (s : BossState)
    (h : s.shutting_down = true) :
    (signal_phase o s).shutting_down = true
    ∧ (signal_phase o s).executed = s.executed := by
  unfold signal_phase
  cases o.signal_ready <;>
    simp [signal_received_sd _ _ h, signal_received_exec, h]

/-- The wakeup phase keeps the flag and executes nothing once shutting
down. -/
theorem wakeup_phase_frame (o : IterOracle) (s : BossState)
    (h : s.shutting_down = true) :
    (wakeup_phase o s).shutting_down = true
    ∧ (wakeup_phase o s).executed = s.executed := by
  unfold wakeup_phase
  cases o.wakeup_ready <;> simp [on_wakeup_shutdown _ h, h]

/-- A whole iteration of `Boss.run` keeps the flag and executes nothing
once shutting down. -/
theorem run_iteration_shutdown_frame (o : IterOracle) (s : BossState)
    (h : s.shutting_down = true) :
    (run_iteration o s).shutting_down = true
    ∧ (run_iteration o s).executed = s.executed := by
  obtain ⟨h2sd, h2ex⟩ := signal_phase_frame o (read_phase o s) (by
    rw [read_phase_shutdown o s h]; exact h)
  obtain ⟨h3sd, h3ex⟩ := wakeup_phase_frame o (signal_phase o (read_phase o s)) h2sd
  have hex : (wakeup_phase o (signal_phase o (read_phase o s))).executed
      = s.executed := by
    rw [h3ex, h2ex, read_phase_shutdown o s h]
  unfold run_iteration
  split
  · rw [write_ready_shutdown _ _ h3sd]
    exact ⟨h3sd, hex⟩
  · exact ⟨h3sd, hex⟩

/-- C3: once `shutting_down` is set, every operation of the `Boss`
interface leaves it set (the session never returns to running), no action is
popped and executed afterwards (`executed` is frozen), and the `run` loop
exits at once under any schedule of readiness events. -/
theorem shutdown_is_terminal (s s' : BossState) (os : List IterOracle)
    (h : Step s s') (hsd : s.shutting_down = true) :
    s'.shutting_down = true ∧ s'.executed = s.executed ∧ runLoop os s = s := by
  have hrl : runLoop os s = s := runLoop_shutdown os s hsd
  refine ⟨?_, ?_, hrl⟩ <;> cases h with
  | queue_action a s => simp [queue_action, wakeup, hsd]
  | wakeup s => simp [wakeup, hsd]
  | on_wakeup s => simp [on_wakeup_shutdown s hsd, hsd]
  | write_ready ns s => simp [write_ready_shutdown ns s hsd, hsd]
  | read_ready r s => simp [read_ready_shutdown r s hsd, hsd]
  | signal_received r s =>
      first
      | exact signal_received_sd r s hsd
      | exact signal_received_exec r s
  | shutdown s => simp [shutdown]
  | render s =>
      unfold render apply_pending_icon apply_pending_title
      cases s.pending_title_change <;> simp <;> cases s.pending_icon_change <;>
        simp [hsd]
  | title_changed t s => simp [title_changed, hsd]
  | icon_changed t s => simp [icon_changed, hsd]
  | write_to_child d s =>
      unfold write_to_child
      split <;> simp [queue_action, wakeup, hsd]
  | mark_dirtied s => simp [mark_dirtied, queue_action, wakeup, hsd]
  | change_default_color k v s =>
      simp [change_default_color, queue_action, wakeup, hsd]
  | on_window_resize w h s => simp [on_window_resize, queue_action, wakeup, hsd]
  | apply_opts s => simp [apply_opts, queue_action, wakeup, hsd]
  | run_iteration o s =>
      first
      | exact (run_iteration_shutdown_frame o s hsd).1
      | exact (run_iteration_shutdown_frame o s hsd).2

/-- C3 witness: the state after `shutdown` from init, stepped by a fully
ready iteration oracle, keeps the flag, executes nothing, and makes the loop
exit immediately. -/
theorem shutdown_is_terminal_witness :
    (run_iteration
        (IterOracle.mk true true true true (ReadResult.data [1]) (SigRead.data [2]) [5])
        (shutdown boss_init)).shutting_down = true
    ∧ (run_iteration
        (IterOracle.mk true true true true (ReadResult.data [1]) (SigRead.data [2]) [5])
        (shutdown boss_init)).executed = (shutdown boss_init).executed
    ∧ runLoop
        [IterOracle.mk true true true true (ReadResult.data [1]) (SigRead.data [2]) [5]]
        (shutdown boss_init) = shutdown boss_init :=
  shutdown_is_terminal (shutdown boss_init) _ _
    (Step.run_iteration
      (IterOracle.mk true true true true (ReadResult.data [1]) (SigRead.data [2]) [5])
      (shutdown boss_init))
    rfl

/-! ## C9 — pending title is last-write-wins, applied at most once -/

/-- Folding any sequence of `title_changed` calls never touches the applied
titles. -/
theorem foldl_title_changed_titles (ts : List String) (s : BossState) :
    (List.foldl (fun st u => title_changed u st) s ts).titles_applied
      = s.titles_applied := by
  induction ts generalizing s with
  | nil => rfl
  | cons a rest ih =>
      rw [List.foldl_cons]
      exact ih (title_changed a s)

/-- `apply_pending_title` with a pending title applies it and clears the
slot. -/
theorem apply_pending_title_some (s : BossState) (t : String)
    (h : s.pending_title_change = some t) :
    apply_pending_title s
      = { s with titles_applied := s.titles_applied ++ [t]
                 pending_title_change := none } := by
  unfold apply_pending_title
  rw [h]

/-- `apply_pending_title` with no pending title is the identity. -/
theorem apply_pending_title_none (s : BossState)
    (h : s.pending_title_change = none) : apply_pending_title s = s := by
  unfold apply_pending_title
  rw [h]

/-- The icon block of `render` never touches the title fields. -/
theorem apply_pending_icon_frame (s : BossState) :
    (apply_pending_icon s).titles_applied = s.titles_applied
    ∧ (apply_pending_icon s).pending_title_change = s.pending_title_change := by
  unfold apply_pending_icon
  cases s.pending_icon_change <;> exact ⟨rfl, rfl⟩

/-- `render` of a state whose pending title is `t` applies exactly `t` and
resets the slot. -/
theorem render_pending_some (s : BossState) (t : String)
    (h : s.pending_title_change = some t) :
    (render s).titles_applied = s.titles_applied ++ [t]
    ∧ (render s).pending_title_change = none := by
  unfold render
  rw [apply_pending_title_some s t h]
  obtain ⟨h1, h2⟩ := apply_pending_icon_frame
    { s with titles_applied := s.titles_applied ++ [t]
             pending_title_change := none }
  exact ⟨h1, h2⟩

/-- `render` of a state with no pending title applies nothing. -/
theorem render_pending_none (s : BossState)
    (h : s.pending_title_change = none) :
    (render s).titles_applied = s.titles_applied
    ∧ (render s).pending_title_change = none := by
  unfold render
  rw [apply_pending_title_none s h]
  obtain ⟨h1, h2⟩ := apply_pending_icon_frame s
  exact ⟨h1, h.symm ▸ h2⟩

/-- C9: if several `title_changed` calls (ending with `t`) occur before the
next render, the pending slot holds only the most recent value `t`; the next
render applies exactly `t` to the window and resets the slot, so a further
render applies nothing more — last-write-wins, applied at most once. -/
theorem title_last_write_wins (s : BossState) (ts : List String) (t : String) :
    (List.foldl (fun st u => title_changed u st) s (ts ++ [t])).pending_title_change
        = some t
    ∧ (render (List.foldl (fun st u => title_changed u st) s (ts ++ [t]))).titles_applied
        = s.titles_applied ++ [t]
    ∧ (render (List.foldl (fun st u => title_changed u st) s (ts ++ [t]))).pending_title_change
        = none
    ∧ (render (render (List.foldl (fun st u => title_changed u st) s (ts ++ [t])))).titles_applied
        = s.titles_applied ++ [t] := by
  have hfold : List.foldl (fun st u => title_changed u st) s (ts ++ [t])
      = title_changed t (List.foldl (fun st u => title_changed u st) s ts) := by
    rw [List.foldl_append, List.foldl_cons, List.foldl_nil]
  have hpend : (List.foldl (fun st u => title_changed u st) s (ts ++ [t])).pending_title_change
      = some t := by
    rw [hfold]; rfl
  have htitles : (List.foldl (fun st u => title_changed u st) s (ts ++ [t])).titles_applied
      = s.titles_applied := foldl_title_changed_titles (ts ++ [t]) s
  obtain ⟨hr1, hr2⟩ := render_pending_some _ t hpend
  rw [htitles] at hr1
  obtain ⟨hrr1, _⟩ := render_pending_none _ hr2
  exact ⟨hpend, hr1, hr2, hrr1.trans hr1⟩

end Kitty
